import Mathlib

/-!
Verification of the sglang prefix-cache core: the asynchronous prefetch
engine (`PrefetchManager`), the pluggable eviction-priority strategies
(`evict_policy`), and the cache metrics module (`cache_timeseries`).
Python code is shallowly embedded: nodes are records, the external
allocator and the asynchronous completion query are explicit function
parameters, and the side effects of issuing a copy are returned as data.
-/

namespace SGLang

/-- A cache-tree node, as read and written by the prefetch manager and the
eviction strategies.  `value` and `host_value` are optional lists of slot
indices; scalar eviction metadata is modelled with `Int`.
`agent_leaf_memory` stores the result of `get_agent_leaf_memory`
(see `LMUStrategy.get_priority`). -/
structure TreeNode where
  value : Option (List Nat)
  host_value : Option (List Nat)
  is_prefetching : Bool
  pending_gpu_indices : Option (List Nat)
  prefetch_event : Option Nat
  last_access_time : Int
  creation_time : Int
  hit_count : Int
  priority : Int
  workflow_eviction_value : Option Int
  agent_leaf_memory : Int
  deriving Repr, DecidableEq

/-- The compute lane (the default CUDA stream). -/
def computeLane : Nat := 0

/-- The dedicated transfer lane: `self.stream = torch.cuda.Stream()`
creates a fresh non-default stream, distinct from the compute lane. -/
def transferLane : Nat := 1

/-- An asynchronous host-to-device copy issued by the manager:
`self.mem.copy_from_cpu(src_indices=..., dst_indices=...)` inside
`with torch.cuda.stream(self.stream)`. -/
structure CopyCmd where
  src_indices : List Nat
  dst_indices : List Nat
  lane : Nat
  deriving Repr, DecidableEq

/-- The outcome of one `request_prefetch` call: the (possibly updated)
node, the copies issued on the transfer lane, and the list of slot counts
requested from the external allocator (`self.mem.alloc_gpu`). -/
structure PrefetchResult where
  node : TreeNode
  copies : List CopyCmd
  allocCalls : List Nat
  deriving Repr, DecidableEq

/-- Embedding of `PrefetchManager.request_prefetch`.  `alloc` is the
external allocator `mem.alloc_gpu` (`none` = allocation failure), `event`
is the fresh completion handle recorded on the transfer lane. -/
def request_prefetch (alloc : Nat → Option (List Nat)) (event : Nat)
    (node : TreeNode) : PrefetchResult :=
  if node.value.isSome then ⟨node, [], []⟩
  else
    match node.host_value with
    | none => ⟨node, [], []⟩
    | some hv =>
      if node.is_prefetching then ⟨node, [], []⟩
      else
        let needed_slots := hv.length
        match alloc needed_slots with
        | none => ⟨node, [], [needed_slots]⟩
        | some gpu_indices =>
          ⟨{ node with
              is_prefetching := true,
              pending_gpu_indices := some gpu_indices,
              prefetch_event := some event },
            [⟨hv, gpu_indices, transferLane⟩], [needed_slots]⟩

/-- Embedding of the per-node body of `PrefetchManager.tick`: a node is
processed only when `is_prefetching` holds; its event is queried
(`node.prefetch_event.query()`, `query` maps a handle to completion), and
on completion the transfer is committed. -/
def tick_node (query : Nat → Bool) (node : TreeNode) : TreeNode :=
  if node.is_prefetching then
    match node.prefetch_event with
    | none => node
    | some ev =>
      if query ev then
        { node with
            is_prefetching := false,
            value := node.pending_gpu_indices,
            pending_gpu_indices := none }
      else node
  else node

/-- Embedding of `PrefetchManager.tick` over all nodes of the tree
(`self.tree.get_all_nodes()` modelled as a list). -/
def tick (query : Nat → Bool) (nodes : List TreeNode) : List TreeNode :=
  nodes.map (tick_node query)

/-- The prefetch invariant of the spec, weakened to what the code
maintains: a prefetching node has no committed `value` and holds a
(non-`none`) reservation in `pending_gpu_indices`. -/
def PrefetchInv (node : TreeNode) : Prop :=
  node.is_prefetching = true →
    node.value = none ∧ node.pending_gpu_indices.isSome = true

instance (node : TreeNode) : Decidable (PrefetchInv node) := by
  unfold PrefetchInv; infer_instance

/-! Eviction strategies (`evict_policy.py`).  Each strategy's
`get_priority` is embedded as a pure function of the node; the strategy
objects carry no fields, so `self` is dropped.  Keys that Python returns
as numbers become `Int`, tuple keys become `Int × Int`. -/

/-- Embedding of `LRUStrategy.get_priority`. -/
def LRUStrategy.get_priority (node : TreeNode) : Int :=
  node.last_access_time

/-- Embedding of `LFUStrategy.get_priority`. -/
def LFUStrategy.get_priority (node : TreeNode) : Int × Int :=
  (node.hit_count, node.last_access_time)

/-- Embedding of `FIFOStrategy.get_priority`. -/
def FIFOStrategy.get_priority (node : TreeNode) : Int :=
  node.creation_time

/-- Embedding of `MRUStrategy.get_priority`. -/
def MRUStrategy.get_priority (node : TreeNode) : Int :=
  -node.last_access_time

/-- Embedding of `FILOStrategy.get_priority`. -/
def FILOStrategy.get_priority (node : TreeNode) : Int :=
  -node.creation_time

/-- Embedding of `PriorityStrategy.get_priority`. -/
def PriorityStrategy.get_priority (node : TreeNode) : Int × Int :=
  (node.priority, node.last_access_time)

/-- Embedding of `StepsToExecutionStrategy.get_priority`. -/
def StepsToExecutionStrategy.get_priority (node : TreeNode) : Int :=
  match node.workflow_eviction_value with
  | none => -9999999
  | some w => -w

/-- Embedding of `LMUStrategy.get_priority`, which returns
`node.get_agent_leaf_memory()`.  `get_agent_leaf_memory` is defined on
`TreeNode` in `radix_cache.py`, which is not part of the source sample;
the node field `agent_leaf_memory` stands for its result.  Modelled from
the spec: the aggregate resident footprint of the node's dependent
subtree, read from node metadata. -/
def LMUStrategy.get_priority (node : TreeNode) : Int :=
  node.agent_leaf_memory

/-- Python's `<` on 2-tuples: lexicographic comparison.  Eviction sorts
by the strategy key ascending, so a smaller key is evicted first. -/
def tupleLt (a b : Int × Int) : Prop :=
  a.1 < b.1 ∨ (a.1 = b.1 ∧ a.2 < b.2)

instance (a b : Int × Int) : Decidable (tupleLt a b) := by
  unfold tupleLt; infer_instance

/-- Equality of the metadata fields the eviction strategies read. -/
def nodeMetaEq (a b : TreeNode) : Prop :=
  a.last_access_time = b.last_access_time ∧
  a.creation_time = b.creation_time ∧
  a.hit_count = b.hit_count ∧
  a.priority = b.priority ∧
  a.workflow_eviction_value = b.workflow_eviction_value ∧
  a.agent_leaf_memory = b.agent_leaf_memory

instance (a b : TreeNode) : Decidable (nodeMetaEq a b) := by
  unfold nodeMetaEq; infer_instance

/-! Metrics (`cache_timeseries.py`).  Only the fields of the returned
dictionaries that the claims are about are modelled; token counts are
`Int` (Python integers) and `utilization` is a `Rat` (exact value of the
Python division). -/

/-- Embedding of the `CacheSnapshot` dataclass (the optional
`node_stats` payload is irrelevant to the claims and omitted). -/
structure CacheSnapshot where
  timestamp : Int
  total_tokens : Int
  evictable_tokens : Int
  protected_tokens : Int
  pool_size : Int
  hit_tokens : Int
  requested_tokens : Int
  request_count : Int
  deriving Repr, DecidableEq

/-- The dictionary assembled by `CacheSnapshot.to_dict` and
`CacheTimeSeriesTracker.get_stats_dict`, restricted to the shared
numeric fields. -/
structure StatsDict where
  total_tokens : Int
  evictable_tokens : Int
  protected_tokens : Int
  utilization : Rat
  hit_tokens : Int
  miss_tokens : Int
  request_count : Int
  deriving Repr, DecidableEq

/-- Embedding of `CacheSnapshot.to_dict`. -/
def CacheSnapshot.to_dict (s : CacheSnapshot) : StatsDict :=
  { total_tokens := s.total_tokens
    evictable_tokens := s.evictable_tokens
    protected_tokens := s.protected_tokens
    utilization :=
      if s.pool_size > 0 then (s.total_tokens : Rat) / (s.pool_size : Rat)
      else 0
    hit_tokens := s.hit_tokens
    miss_tokens := s.requested_tokens - s.hit_tokens
    request_count := s.request_count }

/-- Embedding of the `CacheTimeSeriesTracker` state read by
`get_stats_dict`: the snapshot deque and the cumulative counters. -/
structure CacheTimeSeriesTracker where
  snapshots : List CacheSnapshot
  total_requests : Int
  hit_tokens : Int
  requested_tokens : Int
  deriving Repr, DecidableEq

/-- Embedding of `CacheTimeSeriesTracker.get_stats_dict`
(`self._snapshots[-1] if self._snapshots else None` is the last list
element). -/
def CacheTimeSeriesTracker.get_stats_dict
    (t : CacheTimeSeriesTracker) : StatsDict :=
  let latest := t.snapshots.getLast?
  let total_tokens := match latest with | some s => s.total_tokens | none => 0
  let evictable_tokens :=
    match latest with | some s => s.evictable_tokens | none => 0
  let protected_tokens :=
    match latest with | some s => s.protected_tokens | none => 0
  let pool_size := match latest with | some s => s.pool_size | none => 0
  { total_tokens := total_tokens
    evictable_tokens := evictable_tokens
    protected_tokens := protected_tokens
    utilization :=
      if pool_size > 0 then (total_tokens : Rat) / (pool_size : Rat) else 0
    hit_tokens := t.hit_tokens
    miss_tokens := t.requested_tokens - t.hit_tokens
    request_count := t.total_requests }

/-! Concrete nodes used by witnesses and counterexamples. -/

/-- A host-resident node (scenario of spec section 8: `host_value=[5,6]`). -/
def sampleNode : TreeNode :=
  { value := none, host_value := some [5, 6], is_prefetching := false,
    pending_gpu_indices := none, prefetch_event := none,
    last_access_time := 1, creation_time := 0, hit_count := 0,
    priority := 0, workflow_eviction_value := none, agent_leaf_memory := 0 }

/-- A device-resident node: same metadata as `sampleNode` but with a
committed `value`. -/
def residentNode : TreeNode :=
  { sampleNode with value := some [10, 11, 12] }

/-- A node mid-prefetch, as produced by a successful `request_prefetch`
reserving `[20, 21]` with completion handle `7`. -/
def prefetchingNode : TreeNode :=
  { sampleNode with
      is_prefetching := true,
      pending_gpu_indices := some [20, 21],
      prefetch_event := some 7 }

/-- A host-resident node whose `host_value` is the empty sequence (not
`None`). -/
def emptyHostNode : TreeNode :=
  { sampleNode with host_value := some [] }

/-- C2: for a prefetching node whose completion handle reports complete,
`tick` commits: `value` becomes exactly the reserved
`pending_gpu_indices`, the reservation is cleared and `is_prefetching`
is reset; if the handle is not yet signaled the node is left entirely
unchanged for this iteration. -/
theorem C2_tick_commit_or_leave (query : Nat → Bool) (node : TreeNode)
    (ev : Nat) (hp : node.is_prefetching = true)
    (he : node.prefetch_event = some ev) :
    (query ev = true →
      tick_node query node =
        { node with
            is_prefetching := false,
            value := node.pending_gpu_indices,
            pending_gpu_indices := none }) ∧
    (query ev = false → tick_node query node = node) := by
  constructor <;> intro hq <;> simp [tick_node, hp, he, hq]

/-- Witness for C2 at `prefetchingNode` with a query that reports the
handle complete: `tick` commits `value = [20, 21]`. -/
theorem C2_witness :
    prefetchingNode.is_prefetching = true ∧
    prefetchingNode.prefetch_event = some 7 ∧
    ((fun _ : Nat => true) 7 = true →
      tick_node (fun _ => true) prefetchingNode =
        { prefetchingNode with
            is_prefetching := false,
            value := prefetchingNode.pending_gpu_indices,
            pending_gpu_indices := none }) ∧
    ((fun _ : Nat => true) 7 = false →
      tick_node (fun _ => true) prefetchingNode = prefetchingNode) :=
  ⟨rfl, rfl,
    (C2_tick_commit_or_leave (fun _ => true) prefetchingNode 7 rfl rfl).1,
    (C2_tick_commit_or_leave (fun _ => true) prefetchingNode 7 rfl rfl).2⟩

/-- C3: on a HOST_RESIDENT node, when the allocator denies the
reservation, `request_prefetch` returns with the node unchanged (so in
particular `host_value`, `value` and `is_prefetching` keep their
values). -/
theorem C3_alloc_failure_no_state_change (alloc : Nat → Option (List Nat))
    (event : Nat) (node : TreeNode) (hostIdx : List Nat)
    (hval : node.value = none) (hhost : node.host_value = some hostIdx)
    (hpre : node.is_prefetching = false)
    (hfail : alloc hostIdx.length = none) :
    (request_prefetch alloc event node).node = node := by
  simp [request_prefetch, hval, hhost, hpre, hfail]

/-- Witness for C3 at `sampleNode` with an always-failing allocator. -/
theorem C3_witness :
    sampleNode.value = none ∧
    sampleNode.host_value = some [5, 6] ∧
    sampleNode.is_prefetching = false ∧
    (fun _ : Nat => (none : Option (List Nat))) (List.length [5, 6]) =
      none ∧
    (request_prefetch (fun _ => none) 3 sampleNode).node = sampleNode :=
  ⟨rfl, rfl, rfl, rfl,
    C3_alloc_failure_no_state_change (fun _ => none) 3 sampleNode [5, 6]
      rfl rfl rfl rfl⟩

/-- C4: `request_prefetch` is a no-op — node unchanged, no copy issued
and no allocator call made — when `value` is already set, or
`host_value` is absent, or `is_prefetching` is already true. -/
theorem C4_noop_conditions (alloc : Nat → Option (List Nat)) (event : Nat)
    (node : TreeNode)
    (h : node.value.isSome = true ∨ node.host_value = none ∨
      node.is_prefetching = true) :
    request_prefetch alloc event node = ⟨node, [], []⟩ := by
  rcases h with h | h | h
  · simp [request_prefetch, h]
  · cases hval : node.value.isSome <;> simp [request_prefetch, hval, h]
  · cases hval : node.value.isSome
    · cases hhost : node.host_value <;>
        simp [request_prefetch, hval, hhost, h]
    · simp [request_prefetch, hval]

/-- Witness for C4: calling `request_prefetch` on the device-resident
`residentNode` changes nothing, performs no copy and no allocation. -/
theorem C4_witness :
    (residentNode.value.isSome = true ∨ residentNode.host_value = none ∨
      residentNode.is_prefetching = true) ∧
    request_prefetch (fun _ => some [1]) 0 residentNode =
      ⟨residentNode, [], []⟩ :=
  ⟨Or.inl rfl,
    C4_noop_conditions (fun _ => some [1]) 0 residentNode (Or.inl rfl)⟩

/-- C5: on a HOST_RESIDENT node with a successful reservation,
`request_prefetch` requests exactly `len(host_value)` slots, marks the
node prefetching, stores the reserved indices, issues one asynchronous
copy of the host slots into the reserved slots on the dedicated transfer
lane (distinct from the compute lane), and records the completion
handle on the node. -/
theorem C5_success_starts_transfer (alloc : Nat → Option (List Nat))
    (event : Nat) (node : TreeNode) (hostIdx gpuIdx : List Nat)
    (hval : node.value = none) (hhost : node.host_value = some hostIdx)
    (hpre : node.is_prefetching = false)
    (halloc : alloc hostIdx.length = some gpuIdx) :
    request_prefetch alloc event node =
      ⟨{ node with
          is_prefetching := true,
          pending_gpu_indices := some gpuIdx,
          prefetch_event := some event },
        [⟨hostIdx, gpuIdx, transferLane⟩], [hostIdx.length]⟩ ∧
    transferLane ≠ computeLane := by
  constructor
  · simp [request_prefetch, hval, hhost, hpre, halloc]
  · simp [transferLane, computeLane]

/-- Witness for C5: prefetching `sampleNode` (`host_value=[5,6]`) with
an allocator reserving `[20, 21]` and handle `7`. -/
theorem C5_witness :
    sampleNode.value = none ∧
    sampleNode.host_value = some [5, 6] ∧
    sampleNode.is_prefetching = false ∧
    (fun _ : Nat => some [20, 21]) (List.length [5, 6]) =
      some [20, 21] ∧
    (request_prefetch (fun _ => some [20, 21]) 7 sampleNode =
      ⟨{ sampleNode with
          is_prefetching := true,
          pending_gpu_indices := some [20, 21],
          prefetch_event := some 7 },
        [⟨[5, 6], [20, 21], transferLane⟩], [List.length [5, 6]]⟩ ∧
      transferLane ≠ computeLane) :=
  ⟨rfl, rfl, rfl, rfl,
    C5_success_starts_transfer (fun _ => some [20, 21]) 7 sampleNode
      [5, 6] [20, 21] rfl rfl rfl rfl⟩

/-- The spec's stronger prefetch invariant, exactly as claimed: a
prefetching node has no committed `value` and a non-`none`, NON-EMPTY
reservation in `pending_gpu_indices`. -/
def PrefetchInvStrong (node : TreeNode) : Prop :=
  node.is_prefetching = true →
    node.value = none ∧ node.pending_gpu_indices.isSome = true ∧
      node.pending_gpu_indices.getD [] ≠ []

instance (node : TreeNode) : Decidable (PrefetchInvStrong node) := by
  unfold PrefetchInvStrong; infer_instance

/-- C1 counterexample: when `host_value` is the empty sequence and the
allocator returns a non-`None` (empty) reservation for `0` slots,
`request_prefetch` produces a node with `is_prefetching = true` whose
reservation is empty — the non-emptiness part of the claimed invariant
fails even though the input node satisfied it. -/
theorem C1_counterexample :
    PrefetchInvStrong emptyHostNode ∧
    (request_prefetch (fun _ => some []) 0 emptyHostNode).node.is_prefetching
        = true ∧
    (request_prefetch (fun _ => some []) 0 emptyHostNode).node.pending_gpu_indices
        = some [] ∧
    ¬ PrefetchInvStrong
        (request_prefetch (fun _ => some []) 0 emptyHostNode).node := by
  refine ⟨by decide, rfl, rfl, ?_⟩
  intro h
  exact absurd ((h rfl).2.2) (by decide)

/-- C1 (amended): `is_prefetching = true` implies `value = None` and
`pending_gpu_indices` is a present (non-`None`) reservation; this
invariant is preserved by every `request_prefetch` call (for every
allocator response) and by every `tick_node` step (for every completion
query), hence holds in every reachable state whose initial state
satisfies it — including the empty-`host_value` case, where the
reservation is present but may be empty. -/
theorem C1_invariant_preserved (alloc : Nat → Option (List Nat))
    (query : Nat → Bool) (event : Nat) (node : TreeNode)
    (h : PrefetchInv node) :
    PrefetchInv (request_prefetch alloc event node).node ∧
    PrefetchInv (tick_node query node) := by
  constructor
  · cases hval : node.value with
    | some v => simpa [request_prefetch, hval] using h
    | none =>
      cases hhost : node.host_value with
      | none => simpa [request_prefetch, hval, hhost] using h
      | some hv =>
        cases hpre : node.is_prefetching with
        | true => simpa [request_prefetch, hval, hhost, hpre] using h
        | false =>
          cases halloc : alloc hv.length with
          | none => simpa [request_prefetch, hval, hhost, hpre, halloc] using h
          | some g =>
            simp [request_prefetch, hval, hhost, hpre, halloc, PrefetchInv]
  · cases hpre : node.is_prefetching with
    | false => simpa [tick_node, hpre] using h
    | true =>
      cases hev : node.prefetch_event with
      | none => simpa [tick_node, hpre, hev] using h
      | some ev =>
        cases hq : query ev with
        | false => simpa [tick_node, hpre, hev, hq] using h
        | true => simp [tick_node, hpre, hev, hq, PrefetchInv]

/-- Witness for C1 (amended) at `sampleNode`, a successful allocator and
an always-complete query. -/
theorem C1_witness :
    PrefetchInv sampleNode ∧
    (PrefetchInv
        (request_prefetch (fun _ => some [20, 21]) 7 sampleNode).node ∧
      PrefetchInv (tick_node (fun _ => true) sampleNode)) :=
  ⟨by decide,
    C1_invariant_preserved (fun _ => some [20, 21]) (fun _ => true) 7
      sampleNode (by decide)⟩

/-! Spec-side key definitions, transcribed from the strategy table of
spec section 4.2 (used only to compare against the embedded code). -/

/-- Spec table row for LRU: key `last_access_time`. -/
def specTableLRU (node : TreeNode) : Int := node.last_access_time

/-- Spec table row for LFU: key `(hit_count, last_access_time)`. -/
def specTableLFU (node : TreeNode) : Int × Int :=
  (node.hit_count, node.last_access_time)

/-- Spec table row for FIFO: key `creation_time`. -/
def specTableFIFO (node : TreeNode) : Int := node.creation_time

/-- Spec table row for MRU: key `-last_access_time`. -/
def specTableMRU (node : TreeNode) : Int := -node.last_access_time

/-- Spec table row for FILO: key `-creation_time`. -/
def specTableFILO (node : TreeNode) : Int := -node.creation_time

/-- Spec table row for Priority: key `(priority, last_access_time)`. -/
def specTablePriority (node : TreeNode) : Int × Int :=
  (node.priority, node.last_access_time)

/-- C6: each of the six basic strategies returns exactly the key listed
in the spec's table, for every node. -/
theorem C6_strategy_keys_match_table (node : TreeNode) :
    LRUStrategy.get_priority node = specTableLRU node ∧
    LFUStrategy.get_priority node = specTableLFU node ∧
    FIFOStrategy.get_priority node = specTableFIFO node ∧
    MRUStrategy.get_priority node = specTableMRU node ∧
    FILOStrategy.get_priority node = specTableFILO node ∧
    PriorityStrategy.get_priority node = specTablePriority node :=
  ⟨rfl, rfl, rfl, rfl, rfl, rfl⟩

/-- Node A of the spec's LFU scenario: `last_access_time=1`,
`hit_count=5`. -/
def nodeA : TreeNode :=
  { residentNode with last_access_time := 1, hit_count := 5 }

/-- Node B of the spec's LFU scenario: `last_access_time=2`,
`hit_count=1`. -/
def nodeB : TreeNode :=
  { residentNode with last_access_time := 2, hit_count := 1 }

/-- C7: under LFU, strictly fewer hits gives a strictly smaller
(lexicographic) key regardless of the access times, so the node with
fewer hits is ranked for eviction first. -/
theorem C7_lfu_fewer_hits_ranked_first (a b : TreeNode)
    (h : b.hit_count < a.hit_count) :
    tupleLt (LFUStrategy.get_priority b) (LFUStrategy.get_priority a) :=
  Or.inl h

/-- Witness for C7 at the spec scenario: node B (`hit_count=1`,
`last_access_time=2`) is ranked before node A (`hit_count=5`,
`last_access_time=1`). -/
theorem C7_witness :
    nodeB.hit_count < nodeA.hit_count ∧
    tupleLt (LFUStrategy.get_priority nodeB)
      (LFUStrategy.get_priority nodeA) :=
  ⟨by decide, C7_lfu_fewer_hits_ranked_first nodeA nodeB (by decide)⟩

/-- A node with no workflow prediction (`workflow_eviction_value`
absent). -/
def absentWorkflowNode : TreeNode :=
  { residentNode with workflow_eviction_value := none }

/-- A node whose predicted steps-to-execution exceed the sentinel
magnitude: `workflow_eviction_value = 10000000`. -/
def farWorkflowNode : TreeNode :=
  { residentNode with workflow_eviction_value := some 10000000 }

/-- C8 counterexample: the sentinel key `-9999999` for an absent
prediction is NOT less than or equal to the key of every node with a
present prediction — a node with `workflow_eviction_value = 10000000`
gets key `-10000000`, strictly below the sentinel, so it is ranked for
eviction before the absent-prediction node. -/
theorem C8_counterexample :
    farWorkflowNode.workflow_eviction_value = some 10000000 ∧
    ¬ (StepsToExecutionStrategy.get_priority absentWorkflowNode ≤
        StepsToExecutionStrategy.get_priority farWorkflowNode) := by
  exact ⟨rfl, by decide⟩

/-- C8 (amended): a node with an absent `workflow_eviction_value`
receives the sentinel key `-9999999`, which is less than or equal to the
key of every node whose present `workflow_eviction_value` is at most
`9999999`; within that range an absent prediction is treated as
immediately evictable. -/
theorem C8_sentinel_bounded_first (a b : TreeNode) (w : Int)
    (ha : a.workflow_eviction_value = none)
    (hb : b.workflow_eviction_value = some w) (hw : w ≤ 9999999) :
    StepsToExecutionStrategy.get_priority a = -9999999 ∧
    StepsToExecutionStrategy.get_priority a ≤
      StepsToExecutionStrategy.get_priority b := by
  constructor
  · simp [StepsToExecutionStrategy.get_priority, ha]
  · simp [StepsToExecutionStrategy.get_priority, ha, hb]
    omega

/-- Witness for C8 (amended): absent prediction versus a node with
`workflow_eviction_value = 3`. -/
theorem C8_witness :
    absentWorkflowNode.workflow_eviction_value = none ∧
    residentNode.workflow_eviction_value = none ∧
    (3 : Int) ≤ 9999999 ∧
    (StepsToExecutionStrategy.get_priority absentWorkflowNode = -9999999 ∧
      StepsToExecutionStrategy.get_priority absentWorkflowNode ≤
        StepsToExecutionStrategy.get_priority
          { residentNode with workflow_eviction_value := some 3 }) :=
  ⟨rfl, rfl, by decide,
    C8_sentinel_bounded_first absentWorkflowNode
      { residentNode with workflow_eviction_value := some 3 } 3
      rfl rfl (by decide)⟩

/-- C9: every strategy's `get_priority` is a pure function of the node's
metadata — the embedding returns a key and touches neither the strategy
nor the node — and two nodes with equal metadata fields receive equal
keys under all eight variants, including the memory-footprint-aware LMU
strategy. -/
theorem C9_strategies_deterministic (a b : TreeNode)
    (h : nodeMetaEq a b) :
    LRUStrategy.get_priority a = LRUStrategy.get_priority b ∧
    LFUStrategy.get_priority a = LFUStrategy.get_priority b ∧
    FIFOStrategy.get_priority a = FIFOStrategy.get_priority b ∧
    MRUStrategy.get_priority a = MRUStrategy.get_priority b ∧
    FILOStrategy.get_priority a = FILOStrategy.get_priority b ∧
    PriorityStrategy.get_priority a = PriorityStrategy.get_priority b ∧
    StepsToExecutionStrategy.get_priority a =
      StepsToExecutionStrategy.get_priority b ∧
    LMUStrategy.get_priority a = LMUStrategy.get_priority b := by
  obtain ⟨h1, h2, h3, h4, h5, h6⟩ := h
  refine ⟨?_, ?_, ?_, ?_, ?_, ?_, ?_, ?_⟩ <;>
    simp [LRUStrategy.get_priority, LFUStrategy.get_priority,
      FIFOStrategy.get_priority, MRUStrategy.get_priority,
      FILOStrategy.get_priority, PriorityStrategy.get_priority,
      StepsToExecutionStrategy.get_priority, LMUStrategy.get_priority,
      h1, h2, h3, h4, h5, h6]

/-- Witness for C9: `sampleNode` and `residentNode` differ in `value`
but share all metadata fields, and every strategy gives them equal
keys. -/
theorem C9_witness :
    nodeMetaEq sampleNode residentNode ∧
    (LRUStrategy.get_priority sampleNode =
        LRUStrategy.get_priority residentNode ∧
      LFUStrategy.get_priority sampleNode =
        LFUStrategy.get_priority residentNode ∧
      FIFOStrategy.get_priority sampleNode =
        FIFOStrategy.get_priority residentNode ∧
      MRUStrategy.get_priority sampleNode =
        MRUStrategy.get_priority residentNode ∧
      FILOStrategy.get_priority sampleNode =
        FILOStrategy.get_priority residentNode ∧
      PriorityStrategy.get_priority sampleNode =
        PriorityStrategy.get_priority residentNode ∧
      StepsToExecutionStrategy.get_priority sampleNode =
        StepsToExecutionStrategy.get_priority residentNode ∧
      LMUStrategy.get_priority sampleNode =
        LMUStrategy.get_priority residentNode) :=
  ⟨by decide,
    C9_strategies_deterministic sampleNode residentNode (by decide)⟩

/-- C10: in both `CacheSnapshot.to_dict` and
`CacheTimeSeriesTracker.get_stats_dict`, the reported utilization is
`total_tokens / pool_size` when `pool_size > 0`, and exactly `0` when
`pool_size = 0` or no snapshot exists; miss tokens are reported as
`requested_tokens - hit_tokens`. -/
theorem C10_utilization_guarded (s : CacheSnapshot)
    (t : CacheTimeSeriesTracker) :
    (s.pool_size > 0 →
      s.to_dict.utilization =
        (s.total_tokens : Rat) / (s.pool_size : Rat)) ∧
    (s.pool_size = 0 → s.to_dict.utilization = 0) ∧
    s.to_dict.miss_tokens = s.requested_tokens - s.hit_tokens ∧
    (∀ last, t.snapshots.getLast? = some last →
      (last.pool_size > 0 →
        t.get_stats_dict.utilization =
          (last.total_tokens : Rat) / (last.pool_size : Rat)) ∧
      (last.pool_size = 0 → t.get_stats_dict.utilization = 0)) ∧
    (t.snapshots = [] → t.get_stats_dict.utilization = 0) ∧
    t.get_stats_dict.miss_tokens = t.requested_tokens - t.hit_tokens := by
  refine ⟨?_, ?_, rfl, ?_, ?_, rfl⟩
  · intro hpos
    simp [CacheSnapshot.to_dict, hpos]
  · intro hzero
    simp [CacheSnapshot.to_dict, hzero]
  · intro last hlast
    constructor
    · intro hpos
      simp [CacheTimeSeriesTracker.get_stats_dict, hlast, hpos]
    · intro hzero
      simp [CacheTimeSeriesTracker.get_stats_dict, hlast, hzero]
  · intro hnil
    simp [CacheTimeSeriesTracker.get_stats_dict, hnil]

/-- A concrete snapshot: pool of 100 slots holding 50 tokens, 40 of 60
requested tokens hit. -/
def sampleSnapshot : CacheSnapshot :=
  { timestamp := 0, total_tokens := 50, evictable_tokens := 30,
    protected_tokens := 20, pool_size := 100, hit_tokens := 40,
    requested_tokens := 60, request_count := 5 }

/-- A tracker whose history holds `sampleSnapshot`. -/
def sampleTracker : CacheTimeSeriesTracker :=
  { snapshots := [sampleSnapshot], total_requests := 5,
    hit_tokens := 40, requested_tokens := 60 }

/-- Witness for C10 at `sampleSnapshot` and `sampleTracker`:
utilization `50 / 100` and `20` miss tokens. -/
theorem C10_witness :
    sampleSnapshot.pool_size > 0 ∧
    sampleSnapshot.to_dict.utilization =
      ((50 : Int) : Rat) / ((100 : Int) : Rat) ∧
    sampleSnapshot.to_dict.miss_tokens =
      sampleSnapshot.requested_tokens - sampleSnapshot.hit_tokens ∧
    sampleTracker.get_stats_dict.miss_tokens =
      sampleTracker.requested_tokens - sampleTracker.hit_tokens :=
  ⟨by decide,
    (C10_utilization_guarded sampleSnapshot sampleTracker).1 (by decide),
    (C10_utilization_guarded sampleSnapshot sampleTracker).2.2.1,
    (C10_utilization_guarded sampleSnapshot sampleTracker).2.2.2.2.2⟩

end SGLang
